import Mathlib

/-!
Shallow embedding of the status-checker program (status_checker.py and
notification_providers.py): the state-diffing and notification-dispatch
engine, the message formatter with outage-duration rendering, the
persistent state store, and the notification adapters.

Timestamps are modelled as natural numbers (seconds); `datetime.now()`
becomes an explicit `now` parameter threaded through each run.  Python
dicts become association lists (`List (String × _)`) with insertion-order
semantics, matching `json.dump` of an insertion-ordered dict.
-/

namespace StatusChecker

/-- One entry of the status feed, as consumed by the checker.  Each field is
optional because the source reads it with `component.get(key, default)`. -/
structure Component where
  id : Option String
  name : Option String
  status : Option String
deriving DecidableEq, Repr

/-- `component.get('id', 'unknown')` -/
def compId (c : Component) : String := c.id.getD "unknown"

/-- `component.get('name', 'Unknown Component')` -/
def compName (c : Component) : String := c.name.getD "Unknown Component"

/-- Python's `str.lower()`, modelled character by character (status strings
are ASCII). -/
def strLower (s : String) : String := String.mk (s.data.map Char.toLower)

/-- `component.get('status', 'unknown').lower()` -/
def compStatus (c : Component) : String := strLower (c.status.getD "unknown")

/-- One record of state.json: `{name, status, last_updated, issue_start?}`. -/
structure StateRecord where
  name : String
  status : String
  last_updated : Nat
  issue_start : Option Nat
deriving DecidableEq, Repr

/-- state.json: a mapping from component id to its record, with dict
insertion order preserved. -/
abbrev PersistedState := List (String × StateRecord)

/-- Python dict key lookup `d[k]` / `d.get(k)` on an association list:
first binding of the key wins (keys are unique by construction). -/
def dictLookup (k : String) : List (String × α) → Option α
  | [] => none
  | (k', v) :: rest => if k' = k then some v else dictLookup k rest

/-- Python dict assignment `d[k] = v`: replaces the value at an existing
key in place, else appends the new binding (insertion order). -/
def dictInsert (k : String) (v : α) : List (String × α) → List (String × α)
  | [] => [(k, v)]
  | (k', v') :: rest =>
    if k' = k then (k, v) :: rest else (k', v') :: dictInsert k v rest

/-- The record `save_state` builds for one snapshot component, against the
pre-run state (`current_state` in the source, freshly re-read from disk). -/
def saveStateRecord (current_state : PersistedState) (now : Nat) (c : Component) :
    StateRecord :=
  match dictLookup (compId c) current_state with
  | some old =>
    -- status changed from operational to non-operational: record start time
    if old.status = "operational" ∧ compStatus c ≠ "operational" then
      { name := compName c, status := compStatus c, last_updated := now,
        issue_start := some now }
    -- still non-operational: keep the start time
    else if compStatus c ≠ "operational" ∧ old.issue_start.isSome then
      { name := compName c, status := compStatus c, last_updated := now,
        issue_start := old.issue_start }
    else
      { name := compName c, status := compStatus c, last_updated := now, issue_start := none }
  | none =>
    -- new component with issue
    if compStatus c ≠ "operational" then
      { name := compName c, status := compStatus c, last_updated := now,
        issue_start := some now }
    else
      { name := compName c, status := compStatus c, last_updated := now, issue_start := none }

/-- `save_state(status_data)`: builds the fresh `new_state` dict from the
snapshot, deriving `issue_start` from the pre-run state, in snapshot order. -/
def save_state (status_data : List Component) (current_state : PersistedState)
    (now : Nat) : PersistedState :=
  status_data.foldl
    (fun new_state c => dictInsert (compId c) (saveStateRecord current_state now c) new_state)
    []

/-- The snapshot entry that ends up keyed under `cid` after the save loop:
the last occurrence of the id wins, as with repeated dict assignment. -/
def snapLookup (cid : String) : List Component → Option Component
  | [] => none
  | c :: rest =>
    match snapLookup cid rest with
    | some c' => some c'
    | none => if compId c = cid then some c else none

/-- The `parts` list of `format_duration`: one entry per strictly positive
unit among days, hours and minutes, in that order. -/
def durationParts (days hours minutes : Int) : List String :=
  (if days > 0 then [toString days ++ "d"] else [])
    ++ (if hours > 0 then [toString hours ++ "h"] else [])
    ++ (if minutes > 0 then [toString minutes ++ "m"] else [])

/-- `" ".join(parts) if parts else "less than 1m"` -/
def durationJoin (days hours minutes : Int) : String :=
  if durationParts days hours minutes = [] then "less than 1m"
  else String.intercalate " " (durationParts days hours minutes)

/-- `format_duration`: the difference `now - start` as a Python `timedelta`
(`days` is a floor quotient, `seconds` is normalized into `[0, 86400)`),
then `hours = seconds // 3600`, `minutes = (seconds % 3600) // 60`. -/
def format_duration (start_time : Nat) (now : Nat) : String :=
  durationJoin
    (Int.fdiv ((now : Int) - (start_time : Int)) 86400)
    (Int.fdiv (Int.fmod ((now : Int) - (start_time : Int)) 86400) 3600)
    (Int.fdiv (Int.fmod (Int.fmod ((now : Int) - (start_time : Int)) 86400) 3600) 60)

/-- Modelled from the spec's words for comparison with `format_duration`:
the elapsed difference split into days/hours/minutes, printed
largest-to-smallest with zero-valued units omitted, and rendered as
"less than 1m" when the difference is below one minute. -/
def specDuration (diff : Nat) : String :=
  if diff < 60 then "less than 1m"
  else
    String.intercalate " "
      ((if diff / 86400 ≠ 0 then [toString (diff / 86400) ++ "d"] else [])
        ++ (if diff % 86400 / 3600 ≠ 0 then [toString (diff % 86400 / 3600) ++ "h"] else [])
        ++ (if diff % 3600 / 60 ≠ 0 then [toString (diff % 3600 / 60) ++ "m"] else []))

/-- `DEFAULT_DEGRADATION_MESSAGE` -/
def DEFAULT_DEGRADATION_MESSAGE : String :=
  "\nStatus Degradation Detected:\nComponent: \x7bname\x7d\nPrevious Status: \x7bprev_status\x7d\nCurrent Status: \x7bstatus\x7d\n"

/-- `DEFAULT_RECOVERY_MESSAGE` -/
def DEFAULT_RECOVERY_MESSAGE : String :=
  "\nStatus Recovery Detected:\nComponent: \x7bname\x7d\nPrevious Status: \x7bprev_status\x7d\nCurrent Status: \x7bstatus\x7d\n"

/-- `DEFAULT_NEW_ISSUE_MESSAGE` -/
def DEFAULT_NEW_ISSUE_MESSAGE : String :=
  "\nStatus Issue Detected:\nComponent: \x7bname\x7d\nCurrent Status: \x7bstatus\x7d\n"

/-- The keyword arguments passed to `str.format`. -/
structure FormatParams where
  name : String
  status : String
  prev_status : String
  duration : String
deriving DecidableEq, Repr

/-- Value of a recognized placeholder; `none` models the `KeyError` that
Python's `str.format` raises for an unknown field name. -/
def lookupParam (p : FormatParams) (key : String) : Option String :=
  if key = "name" then some p.name
  else if key = "status" then some p.status
  else if key = "prev_status" then some p.prev_status
  else if key = "duration" then some p.duration
  else none

/-- Scanner state for the `str.format` pass: plain text, just after an
opening brace, just after a closing brace, or inside a field name
(collected in reverse in `acc`). -/
inductive SubstMode where
  | text : SubstMode
  | openBr : SubstMode
  | closeBr : SubstMode
  | key (acc : List Char) : SubstMode
deriving DecidableEq, Repr

/-- One pass of `str.format` over the template characters, one character per
step.  `{{` and `}}` are literal braces; `none` models the exception Python
raises on an unknown field, a stray brace or an unterminated field. -/
def substAux (p : FormatParams) : List Char → SubstMode → Option (List Char)
  | [], .text => some []
  | [], .openBr => none
  | [], .closeBr => none
  | [], .key _ => none
  | c :: rest, .text =>
    if c = '\x7b' then substAux p rest .openBr
    else if c = '\x7d' then substAux p rest .closeBr
    else (substAux p rest .text).map (c :: ·)
  | c :: rest, .openBr =>
    if c = '\x7b' then (substAux p rest .text).map ('\x7b' :: ·)
    else if c = '\x7d' then none
    else substAux p rest (.key [c])
  | c :: rest, .closeBr =>
    if c = '\x7d' then (substAux p rest .text).map ('\x7d' :: ·)
    else none
  | c :: rest, .key acc =>
    if c = '\x7d' then
      match lookupParam p (String.mk acc.reverse) with
      | some v => (substAux p rest .text).map (v.data ++ ·)
      | none => none
    else if c = '\x7b' then none
    else substAux p rest (.key (c :: acc))

/-- `template.format(**format_params)` -/
def subst (p : FormatParams) (template : String) : Option String :=
  (substAux p template.data .text).map String.mk

/-- Per-component entry of config.yaml: every key is optional; the source
reads each with `.get(key, default)`. -/
structure ComponentConfig where
  enabled : Option Bool := none
  notify_on : Option (List String) := none
  messages : Option (List (String × String)) := none
deriving DecidableEq, Repr

/-- `config_map`: component id → its configuration entry. -/
abbrev ConfigMap := List (String × ComponentConfig)

/-- The literal default used by `config_map.get(component_id, {...})`:
`{"enabled": True, "notify_on": ["degradation", "recovery"]}`. -/
def default_component_config : ComponentConfig :=
  { enabled := some true, notify_on := some ["degradation", "recovery"], messages := none }

/-- The `duration` entry of the format parameters: non-empty only for a
recovery message whose component has an `issue_start` in the prior state. -/
def durationParam (component_id : String) (message_type : String)
    (state : PersistedState) (now : Nat) : String :=
  if message_type = "recovery" then
    match dictLookup component_id state with
    | some r =>
      match r.issue_start with
      | some t => " (duration: " ++ format_duration t now ++ ")"
      | none => ""
    | none => ""
  else ""

/-- The `format_params` dict of `get_message`. -/
def mkFormatParams (component_name current_status : String) (prev_status : Option String)
    (component_id message_type : String) (state : PersistedState) (now : Nat) :
    FormatParams where
  name := component_name
  status := current_status
  prev_status :=
    match prev_status with
    | some s => if s = "" then "unknown" else s
    | none => "unknown"
  duration := durationParam component_id message_type state now

/-- `title = f"{emoji} {component_name}"` with the fixed glyph chosen by the
message type. -/
def msgTitle (component_name message_type : String) : String :=
  (if message_type = "degradation" then "🔴" else "🟢") ++ " " ++ component_name

/-- Default body template selection of `get_message`. -/
def defaultTemplate (message_type : String) (prev_status : Option String) : String :=
  if message_type = "degradation" then
    match prev_status with
    | some s => if s = "" then DEFAULT_NEW_ISSUE_MESSAGE else DEFAULT_DEGRADATION_MESSAGE
    | none => DEFAULT_NEW_ISSUE_MESSAGE
  else DEFAULT_RECOVERY_MESSAGE

/-- Custom body template lookup: `config_map[component_id]['messages'][message_type]`,
used only when present and non-empty (Python truthiness). -/
def customTemplate (component_id message_type : String) (config_map : ConfigMap) :
    Option String :=
  match dictLookup component_id config_map with
  | some cc =>
    match cc.messages with
    | some msgs =>
      match dictLookup message_type msgs with
      | some cm => if cm = "" then none else some cm
      | none => none
    | none => none
  | none => none

/-- `get_message`: the `(title, body)` pair, `none` when `str.format` raises.
The body template is the non-empty custom one when configured, else the
default for the message type. -/
def get_message (component_id component_name current_status : String)
    (prev_status : Option String) (message_type : String) (config_map : ConfigMap)
    (state : PersistedState) (now : Nat) : Option (String × String) :=
  (subst
      (mkFormatParams component_name current_status prev_status
        component_id message_type state now)
      ((customTemplate component_id message_type config_map).getD
        (defaultTemplate message_type prev_status))).map
    (fun body => (msgTitle component_name message_type, body))

/-- A template on which `str.format` succeeds (for any parameter values, by
`subst_isSome_indep`). -/
def substOkTpl (t : String) : Bool :=
  (subst { name := "", status := "", prev_status := "", duration := "" } t).isSome

/-- Every custom template of the configuration references only the defined
format parameters, so rendering it never raises. -/
def wfConfigMap (config_map : ConfigMap) : Bool :=
  config_map.all fun kc =>
    match kc.2.messages with
    | some msgs => msgs.all fun km => substOkTpl km.2
    | none => true

/-- `config_map.get(component_id, {"enabled": True, "notify_on": [...]})` -/
def resolvedConfig (config_map : ConfigMap) (component_id : String) : ComponentConfig :=
  (dictLookup component_id config_map).getD default_component_config

/-- `component_config.get('enabled', True)` -/
def resolvedEnabled (config_map : ConfigMap) (component_id : String) : Bool :=
  (resolvedConfig config_map component_id).enabled.getD true

/-- `component_config.get('notify_on', ["degradation", "recovery"])` -/
def resolvedNotifyOn (config_map : ConfigMap) (component_id : String) : List String :=
  (resolvedConfig config_map component_id).notify_on.getD ["degradation", "recovery"]

/-- One attempted Notification Port invocation, as recorded by the engine. -/
structure SendRec where
  component_id : String
  message_type : String
  title : String
  message : String
deriving DecidableEq, Repr

/-- The loop body of `check_components` for one snapshot component:
`none` models an exception escaping the iteration (a `str.format` failure);
otherwise yields the notification attempted for this component (if any) and
this component's contribution to `issues_found`. -/
def processComponent (previous_state : PersistedState) (config_map : ConfigMap)
    (now : Nat) (component : Component) : Option (Option SendRec × Bool) :=
  -- skip if notifications are disabled for this component
  if resolvedEnabled config_map (compId component) = false then some (none, false)
  else
    match dictLookup (compId component) previous_state with
    | some prev =>
      -- degradation: was operational, now it is not
      if prev.status = "operational" ∧ compStatus component ≠ "operational"
          ∧ "degradation" ∈ resolvedNotifyOn config_map (compId component) then
        match get_message (compId component) (compName component) (compStatus component)
            (some prev.status) "degradation" config_map previous_state now with
        | some tm => some (some ⟨compId component, "degradation", tm.1, tm.2⟩, true)
        | none => none
      -- recovery: was not operational, now it is
      else if prev.status ≠ "operational" ∧ compStatus component = "operational"
          ∧ "recovery" ∈ resolvedNotifyOn config_map (compId component) then
        match get_message (compId component) (compName component) (compStatus component)
            (some prev.status) "recovery" config_map previous_state now with
        | some tm => some (some ⟨compId component, "recovery", tm.1, tm.2⟩, false)
        | none => none
      else some (none, false)
    | none =>
      -- new component or first run: notify if not operational
      if compStatus component ≠ "operational"
          ∧ "degradation" ∈ resolvedNotifyOn config_map (compId component) then
        match get_message (compId component) (compName component) (compStatus component)
            none "degradation" config_map previous_state now with
        | some tm => some (some ⟨compId component, "degradation", tm.1, tm.2⟩, true)
        | none => none
      else some (none, false)

/-- The `for component in status_data` loop: sends in snapshot order and the
accumulated `issues_found`; `none` when an exception aborts the loop. -/
def checkComponentsLoop (previous_state : PersistedState) (config_map : ConfigMap)
    (now : Nat) : List Component → Option (List SendRec × Bool)
  | [] => some ([], false)
  | c :: rest =>
    match processComponent previous_state config_map now c with
    | none => none
    | some r =>
      match checkComponentsLoop previous_state config_map now rest with
      | none => none
      | some rs => some (r.1.toList ++ rs.1, r.2 || rs.2)

/-- `check_components`: the attempted sends, the `issues_found` flag and the
state handed to `save_state`; `none` when an exception aborts the run
before the state is saved. -/
def check_components (status_data : List Component) (previous_state : PersistedState)
    (config_map : ConfigMap) (now : Nat) :
    Option (List SendRec × Bool × PersistedState) :=
  (checkComponentsLoop previous_state config_map now status_data).map
    (fun r => (r.1, r.2, save_state status_data previous_state now))

/-- Outcome of the write in `save_state`: the whole
`open("state.json", "w")` + `json.dump` succeeds (`ok`, which also covers a
failure only at close after the content is fully flushed), the `open` call
itself raises before anything is truncated (`openFail`), or the open
succeeded — truncating the file — and the dump/flush then raised
(`dumpFail`). -/
inductive WriteOutcome where
  | ok : WriteOutcome
  | openFail : WriteOutcome
  | dumpFail : WriteOutcome
deriving DecidableEq, Repr

/-- The state-file content as the next `load_state` will parse it, after
one invocation of `check_components` against file content `file`.  Every
write failure is caught and logged inside `save_state`, so
`check_components` returns normally either way — but the disk outcomes
differ: on `openFail` the prior content is untouched; on `dumpFail` the
mode-"w" open has already truncated the file, the dump leaves it empty or
a strict (unparsable) prefix of the JSON, and the next `load_state`
swallows the parse error and degrades to the empty state.  When the run
aborts before `save_state` (`none`), no write is attempted at all. -/
def runPersist (status_data : List Component) (file : PersistedState)
    (config_map : ConfigMap) (now : Nat) : WriteOutcome → PersistedState :=
  fun w =>
    match check_components status_data file config_map now with
    | some r =>
      match w with
      | .ok => r.2.2
      | .openFail => file
      | .dumpFail => []
    | none => file

/-- What one run attempts to send, paired with the transport result the
provider returned; the source discards that boolean, so it is recorded but
never consulted. -/
def runSends (provider : String → String → Bool) (status_data : List Component)
    (previous_state : PersistedState) (config_map : ConfigMap) (now : Nat) :
    Option (List (SendRec × Bool) × Bool × PersistedState) :=
  (check_components status_data previous_state config_map now).map
    (fun r => (r.1.map (fun s => (s, provider s.title s.message)), r.2.1, r.2.2))

/-- Outcome of the HTTP POST inside `GotifyProvider.send_notification`:
either an exception from the request machinery, or a response with a status
code (`raise_for_status` raises on 4xx/5xx). -/
inductive GotifyOutcome where
  | exn (msg : String)
  | response (status : Nat)
deriving DecidableEq, Repr

/-- `GotifyProvider.send_notification`: every failure path inside the `try`
is converted to `false` by the handler. -/
def gotifySend : GotifyOutcome → Bool
  | .exn _ => false
  | .response s => if 400 ≤ s ∧ s < 600 then false else true

/-- Outcome of the HTTP POST inside `SlackProvider.send_notification`: an
exception, or a response with a status code and the `ok` flag of the parsed
body (`response_data.get('ok', False)`). -/
inductive SlackOutcome where
  | exn (msg : String)
  | response (status : Nat) (ok : Bool)
deriving DecidableEq, Repr

/-- `SlackProvider.send_notification`: `raise_for_status` on 4xx/5xx, then
the transport's own success flag is checked; every raise is converted to
`false` by the handler. -/
def slackSend : SlackOutcome → Bool
  | .exn _ => false
  | .response s ok => if 400 ≤ s ∧ s < 600 then false else if ok then true else false

/-- One run of the checker as fed to the Persistent State Store: a snapshot
and the wall-clock time of that run.  Traces list the most recent run
first. -/
structure RunStep where
  snap : List Component
  now : Nat
deriving DecidableEq, Repr

/-- The persisted state after a trace of runs starting from the empty
state (head of the list = most recent run). -/
def applyRuns : List RunStep → PersistedState
  | [] => []
  | r :: older => save_state r.snap (applyRuns older) r.now

/-- Whether a run's snapshot reports component `cid` with a non-operational
status. -/
def nonOpAt (r : RunStep) (cid : String) : Bool :=
  match snapLookup cid r.snap with
  | some c => compStatus c != "operational"
  | none => false

/-- `t` is the time the current uninterrupted non-operational span of `cid`
began: some run at index `i` (index 0 = most recent) has time `t`, the
component is reported non-operational by every run from the present back to
`i`, and the next older run (when there is one) did not report it
non-operational. -/
def SpanBegin (runs : List RunStep) (cid : String) (t : Nat) : Prop :=
  ∃ i, (∃ ri, runs.get? i = some ri ∧ ri.now = t)
    ∧ (∀ j, j ≤ i → ∃ rj, runs.get? j = some rj ∧ nonOpAt rj cid = true)
    ∧ (runs.get? (i + 1)).all (fun r => ! nonOpAt r cid) = true

/-- Claim-side condition of C1: the component's policy is enabled and one of
the three notifying transitions applies. -/
def notifAttemptCond (previous_state : PersistedState) (config_map : ConfigMap)
    (c : Component) : Bool :=
  resolvedEnabled config_map (compId c)
    && match dictLookup (compId c) previous_state with
      | some r =>
        ((r.status == "operational") && (compStatus c != "operational")
            && (resolvedNotifyOn config_map (compId c)).contains "degradation")
          || ((r.status != "operational") && (compStatus c == "operational")
            && (resolvedNotifyOn config_map (compId c)).contains "recovery")
      | none =>
        (compStatus c != "operational")
          && (resolvedNotifyOn config_map (compId c)).contains "degradation"

/-- The transition kind the engine reports for a component that triggers a
notification. -/
def kindFor (previous_state : PersistedState) (c : Component) : String :=
  match dictLookup (compId c) previous_state with
  | some r =>
    if r.status ≠ "operational" ∧ compStatus c = "operational" then "recovery"
    else "degradation"
  | none => "degradation"

/-- The exact condition under which the source sets `issues_found` for a
component: an enabled, degradation-subscribed component that is currently
non-operational and is either new to the state or was previously
operational. -/
def issuesFlagCond (previous_state : PersistedState) (config_map : ConfigMap)
    (c : Component) : Bool :=
  resolvedEnabled config_map (compId c)
    && (compStatus c != "operational")
    && (resolvedNotifyOn config_map (compId c)).contains "degradation"
    && match dictLookup (compId c) previous_state with
      | some r => r.status == "operational"
      | none => true

/-- Claim-side condition of C4 as stated: the component has a
non-operational status and is not suppressed by its policy. -/
def issuesClaimCond (config_map : ConfigMap) (c : Component) : Bool :=
  (compStatus c != "operational")
    && resolvedEnabled config_map (compId c)
    && (resolvedNotifyOn config_map (compId c)).contains "degradation"

/-- Derivation of `issue_start` as claim C2 states it, amended in its
"already non-operational, no existing value" case to match the source:
there the record keeps no `issue_start` at all rather than `now`. -/
def issueStartClaim (cur : String) (prior : Option StateRecord) (now : Nat) : Option Nat :=
  if cur = "operational" then none
  else
    match prior with
    | none => some now
    | some old => if old.status = "operational" then some now else old.issue_start

/-- Derivation of `issue_start` exactly as claim C2 states it: for an
already non-operational component, the existing value when present and
`now` otherwise. -/
def issueStartClaimOrig (cur : String) (prior : Option StateRecord) (now : Nat) :
    Option Nat :=
  if cur = "operational" then none
  else
    match prior with
    | none => some now
    | some old =>
      if old.status = "operational" then some now
      else
        match old.issue_start with
        | some t => some t
        | none => some now

/-- Fixture trace for the C3 witness: BankID reported in major outage at
time 4 and again at time 9 (most recent first). -/
def c3RunsFixture : List RunStep :=
  [⟨[⟨some "bankid", some "BankID", some "major_outage"⟩], 9⟩,
   ⟨[⟨some "bankid", some "BankID", some "major_outage"⟩], 4⟩]

/-- Fixture snapshot with a duplicated component id, as claim C5 quantifies
over arbitrary snapshots. -/
def c5DupSnap : List Component :=
  [⟨some "bankid", some "BankID", some "major_outage"⟩,
   ⟨some "bankid", some "BankID", some "operational"⟩]

/-- Configuration with a custom degradation template that references an
undefined parameter, making `str.format` raise mid-run. -/
def c6BadCfg : ConfigMap :=
  [("bankid", { messages := some [("degradation", "\x7bbogus\x7d")] })]

/-- Configuration muting the component: `notify_on = []`. -/
def c6MuteCfg : ConfigMap := [("bankid", { notify_on := some [] })]

theorem dictLookup_dictInsert (k k' : String) (v : α) (l : List (String × α)) :
    dictLookup k (dictInsert k' v l) = if k' = k then some v else dictLookup k l := by
  induction l with
  | nil => simp [dictInsert, dictLookup]
  | cons hd tl ih =>
    obtain ⟨a, b⟩ := hd
    by_cases hak : a = k'
    · subst hak
      simp only [dictInsert, if_pos rfl, dictLookup]
      by_cases hk : a = k
      · simp [hk]
      · simp [hk]
    · simp only [dictInsert, if_neg hak, dictLookup, ih]
      by_cases hk : a = k
      · have hk2 : k' ≠ k := fun h => hak (hk.trans h.symm)
        simp [hk, hk2]
      · simp [hk]

theorem mem_of_dictLookup {k : String} {v : α} {l : List (String × α)} :
    dictLookup k l = some v → (k, v) ∈ l := by
  induction l with
  | nil => intro h; simp [dictLookup] at h
  | cons hd tl ih =>
    obtain ⟨a, b⟩ := hd
    intro h
    simp only [dictLookup] at h
    by_cases hak : a = k
    · rw [if_pos hak] at h
      simp only [Option.some.injEq] at h
      subst h
      subst hak
      exact List.mem_cons_self _ _
    · rw [if_neg hak] at h
      exact List.mem_cons_of_mem _ (ih h)

theorem snapLookup_compId {cid : String} {S : List Component} {c : Component} :
    snapLookup cid S = some c → compId c = cid := by
  induction S with
  | nil => intro h; simp [snapLookup] at h
  | cons hd tl ih =>
    simp only [snapLookup]
    cases htl : snapLookup cid tl with
    | some c' =>
      intro h
      simp only [Option.some.injEq] at h
      subst h
      exact ih htl
    | none =>
      by_cases hh : compId hd = cid
      · intro h
        simp only [if_pos hh, Option.some.injEq] at h
        subst h
        exact hh
      · intro h
        simp [if_neg hh] at h

theorem dictLookup_foldl_save (current_state : PersistedState) (now : Nat)
    (cid : String) (S : List Component) (acc : List (String × StateRecord)) :
    dictLookup cid
      (S.foldl (fun ns c => dictInsert (compId c) (saveStateRecord current_state now c) ns) acc)
      = match snapLookup cid S with
        | some c => some (saveStateRecord current_state now c)
        | none => dictLookup cid acc := by
  induction S generalizing acc with
  | nil => simp [snapLookup]
  | cons hd tl ih =>
    simp only [List.foldl_cons, snapLookup]
    rw [ih]
    cases htl : snapLookup cid tl with
    | some c' => simp
    | none =>
      simp only [dictLookup_dictInsert]
      by_cases hh : compId hd = cid
      · simp [hh]
      · simp [hh]

/-- Looking a component id up in the saved state: present exactly when the id
occurs in the snapshot, and then carries the record derived for its last
occurrence. -/
theorem dictLookup_save_state (S : List Component) (P : PersistedState) (now : Nat)
    (cid : String) :
    dictLookup cid (save_state S P now)
      = (snapLookup cid S).map (saveStateRecord P now) := by
  unfold save_state
  rw [dictLookup_foldl_save]
  cases snapLookup cid S <;> simp [dictLookup]

theorem toString_intCast (n : Nat) : toString ((n : Nat) : Int) = toString n := rfl

/-- On non-negative spans the source's timedelta arithmetic agrees with the
plain natural-number unit split of the spec. -/
theorem format_duration_eq_specDuration (start_time now : Nat) (h : start_time ≤ now) :
    format_duration start_time now = specDuration (now - start_time) := by
  unfold format_duration specDuration
  have htot : (now : Int) - (start_time : Int) = ((now - start_time : Nat) : Int) := by omega
  rw [htot]
  have c1 : (86400 : Int) = ((86400 : Nat) : Int) := rfl
  have c2 : (3600 : Int) = ((3600 : Nat) : Int) := rfl
  have c3 : (60 : Int) = ((60 : Nat) : Int) := rfl
  rw [c1, c2, c3, ← Int.ofNat_fdiv, ← Int.ofNat_fmod, ← Int.ofNat_fdiv, ← Int.ofNat_fmod,
    ← Int.ofNat_fdiv]
  set diff := now - start_time with hdiff
  have hmod : diff % 86400 % 3600 = diff % 3600 := Nat.mod_mod_of_dvd diff (by norm_num)
  rw [hmod]
  unfold durationJoin durationParts
  have hgt : ∀ k : Nat, (((k : Nat) : Int) > 0) = (k ≠ 0) := by
    intro k
    simp only [gt_iff_lt, eq_iff_iff]
    omega
  simp only [hgt, toString_intCast]
  by_cases hlt : diff < 60
  · have hd : diff / 86400 = 0 := by omega
    have hh : diff % 86400 / 3600 = 0 := by omega
    have hm : diff % 3600 / 60 = 0 := by omega
    simp [hd, hh, hm, hlt]
  · rw [if_neg hlt]
    have hne : ¬((if diff / 86400 ≠ 0 then [toString (diff / 86400) ++ "d"] else [])
        ++ (if diff % 86400 / 3600 ≠ 0 then [toString (diff % 86400 / 3600) ++ "h"] else [])
        ++ (if diff % 3600 / 60 ≠ 0 then [toString (diff % 3600 / 60) ++ "m"] else []) = []) := by
      intro hempty
      have h1 : diff / 86400 = 0 := by
        by_contra hc
        rw [if_pos hc] at hempty
        simp at hempty
      have h2 : diff % 86400 / 3600 = 0 := by
        by_contra hc
        rw [if_pos hc] at hempty
        simp at hempty
      have h3 : diff % 3600 / 60 = 0 := by
        by_contra hc
        rw [if_pos hc] at hempty
        simp at hempty
      omega
    rw [if_neg hne]

theorem lookupParam_isSome (p q : FormatParams) (key : String) :
    (lookupParam p key).isSome = (lookupParam q key).isSome := by
  unfold lookupParam
  by_cases h1 : key = "name"
  · simp [h1]
  · by_cases h2 : key = "status"
    · simp [h1, h2]
    · by_cases h3 : key = "prev_status"
      · simp [h1, h2, h3]
      · by_cases h4 : key = "duration"
        · simp [h1, h2, h3, h4]
        · simp [h1, h2, h3, h4]

/-- Whether `str.format` succeeds on a template depends only on the
template, never on the values being substituted. -/
theorem substAux_isSome_indep (p q : FormatParams) :
    ∀ (l : List Char) (mode : SubstMode),
      (substAux p l mode).isSome = (substAux q l mode).isSome := by
  intro l
  induction l with
  | nil => intro mode; cases mode <;> simp [substAux]
  | cons c rest ih =>
    intro mode
    cases mode with
    | text =>
      simp only [substAux]
      by_cases hob : c = '\x7b'
      · rw [if_pos hob, if_pos hob]
        exact ih .openBr
      · rw [if_neg hob, if_neg hob]
        by_cases hcb : c = '\x7d'
        · rw [if_pos hcb, if_pos hcb]
          exact ih .closeBr
        · rw [if_neg hcb, if_neg hcb]
          simp only [Option.isSome_map']
          exact ih .text
    | openBr =>
      simp only [substAux]
      by_cases hob : c = '\x7b'
      · rw [if_pos hob, if_pos hob]
        simp only [Option.isSome_map']
        exact ih .text
      · rw [if_neg hob, if_neg hob]
        by_cases hcb : c = '\x7d'
        · simp [if_pos hcb]
        · rw [if_neg hcb, if_neg hcb]
          exact ih (.key [c])
    | closeBr =>
      simp only [substAux]
      by_cases hcb : c = '\x7d'
      · rw [if_pos hcb, if_pos hcb]
        simp only [Option.isSome_map']
        exact ih .text
      · simp [if_neg hcb]
    | key acc =>
      simp only [substAux]
      by_cases hcb : c = '\x7d'
      · rw [if_pos hcb, if_pos hcb]
        have hk := lookupParam_isSome p q (String.mk acc.reverse)
        cases hp : lookupParam p (String.mk acc.reverse) with
        | some v =>
          cases hq : lookupParam q (String.mk acc.reverse) with
          | some w => simp only [Option.isSome_map']; exact ih .text
          | none => rw [hp, hq] at hk; simp at hk
        | none =>
          cases hq : lookupParam q (String.mk acc.reverse) with
          | some w => rw [hp, hq] at hk; simp at hk
          | none => simp
      · rw [if_neg hcb, if_neg hcb]
        by_cases hob : c = '\x7b'
        · simp [if_pos hob]
        · rw [if_neg hob, if_neg hob]
          exact ih (.key (c :: acc))

theorem subst_isSome_indep (p q : FormatParams) (template : String) :
    (subst p template).isSome = (subst q template).isSome := by
  unfold subst
  simp only [Option.isSome_map']
  exact substAux_isSome_indep p q template.data .text

theorem subst_isSome_of_substOkTpl (p : FormatParams) (t : String)
    (h : substOkTpl t = true) : (subst p t).isSome = true := by
  rw [subst_isSome_indep p { name := "", status := "", prev_status := "", duration := "" }]
  exact h

set_option maxRecDepth 8192 in
theorem substOkTpl_degradation : substOkTpl DEFAULT_DEGRADATION_MESSAGE = true := by decide

set_option maxRecDepth 8192 in
theorem substOkTpl_recovery : substOkTpl DEFAULT_RECOVERY_MESSAGE = true := by decide

set_option maxRecDepth 8192 in
theorem substOkTpl_new_issue : substOkTpl DEFAULT_NEW_ISSUE_MESSAGE = true := by decide

theorem substOkTpl_defaultTemplate (message_type : String) (prev_status : Option String) :
    substOkTpl (defaultTemplate message_type prev_status) = true := by
  unfold defaultTemplate
  by_cases h : message_type = "degradation"
  · rw [if_pos h]
    cases prev_status with
    | none => exact substOkTpl_new_issue
    | some s =>
      show substOkTpl
        (if s = "" then DEFAULT_NEW_ISSUE_MESSAGE else DEFAULT_DEGRADATION_MESSAGE) = true
      by_cases hs : s = ""
      · rw [if_pos hs]; exact substOkTpl_new_issue
      · rw [if_neg hs]; exact substOkTpl_degradation
  · rw [if_neg h]; exact substOkTpl_recovery

theorem substOkTpl_of_customTemplate {component_id message_type : String}
    {config_map : ConfigMap} {cm : String} (hwf : wfConfigMap config_map = true)
    (hct : customTemplate component_id message_type config_map = some cm) :
    substOkTpl cm = true := by
  unfold customTemplate at hct
  split at hct
  next cc hcc =>
    split at hct
    next msgs hm =>
      split at hct
      next cm' hcm =>
        split at hct
        next => simp at hct
        next hne =>
          obtain rfl : cm' = cm := Option.some.inj hct
          have h1 := mem_of_dictLookup hcc
          have h2 := mem_of_dictLookup hcm
          unfold wfConfigMap at hwf
          rw [List.all_eq_true] at hwf
          have h3 := hwf _ h1
          simp only [hm] at h3
          rw [List.all_eq_true] at h3
          exact h3 _ h2
      next hcm => simp at hct
    next hm => simp at hct
  next hcc => simp at hct

/-- Under a well-formed configuration `get_message` always returns a pair. -/
theorem get_message_isSome (component_id component_name current_status : String)
    (prev_status : Option String) (message_type : String) (config_map : ConfigMap)
    (state : PersistedState) (now : Nat) (hwf : wfConfigMap config_map = true) :
    (get_message component_id component_name current_status prev_status message_type
      config_map state now).isSome = true := by
  unfold get_message
  simp only [Option.isSome_map']
  cases hct : customTemplate component_id message_type config_map with
  | none =>
    simp only [Option.getD_none]
    exact subst_isSome_of_substOkTpl _ _ (substOkTpl_defaultTemplate _ _)
  | some cm =>
    simp only [Option.getD_some]
    exact subst_isSome_of_substOkTpl _ _ (substOkTpl_of_customTemplate hwf hct)

theorem saveStateRecord_status (P : PersistedState) (now : Nat) (c : Component) :
    (saveStateRecord P now c).status = compStatus c := by
  unfold saveStateRecord
  split <;> split_ifs <;> rfl

theorem saveStateRecord_name (P : PersistedState) (now : Nat) (c : Component) :
    (saveStateRecord P now c).name = compName c := by
  unfold saveStateRecord
  split <;> split_ifs <;> rfl

theorem saveStateRecord_last_updated (P : PersistedState) (now : Nat) (c : Component) :
    (saveStateRecord P now c).last_updated = now := by
  unfold saveStateRecord
  split <;> split_ifs <;> rfl

theorem saveStateRecord_issue_start (P : PersistedState) (now : Nat) (c : Component) :
    (saveStateRecord P now c).issue_start =
      match dictLookup (compId c) P with
      | some old =>
        if old.status = "operational" ∧ compStatus c ≠ "operational" then some now
        else if compStatus c ≠ "operational" ∧ old.issue_start.isSome then old.issue_start
        else none
      | none => if compStatus c ≠ "operational" then some now else none := by
  unfold saveStateRecord
  split <;> split_ifs <;> rfl

/-- C2 (amended): in the state written at the end of a run, every record's
`issue_start` is derived from the pre-update prior state: `now` on a
transition from operational (or for a newly seen non-operational
component), the prior record's existing value for a continuing
non-operational component — and absent, not `now`, when that continuing
record carried no value — and absent whenever the current status is
operational. -/
theorem c2_issue_start_amended (S : List Component) (P : PersistedState) (now : Nat)
    (cid : String) (r : StateRecord)
    (h : dictLookup cid (save_state S P now) = some r) :
    r.issue_start = issueStartClaim r.status (dictLookup cid P) now := by
  rw [dictLookup_save_state] at h
  cases hs : snapLookup cid S with
  | none => rw [hs] at h; simp at h
  | some c =>
    rw [hs] at h
    simp only [Option.map_some', Option.some.injEq] at h
    subst h
    have hcid : compId c = cid := snapLookup_compId hs
    rw [saveStateRecord_issue_start, saveStateRecord_status, ← hcid]
    unfold issueStartClaim
    cases hp : dictLookup (compId c) P with
    | none =>
      by_cases hop : compStatus c = "operational" <;> simp [hop]
    | some old =>
      by_cases hop : compStatus c = "operational"
      · simp [hop]
      · by_cases hos : old.status = "operational"
        · simp [hop, hos]
        · cases his : old.issue_start with
          | some t => simp [hop, hos, his]
          | none => simp [hop, hos, his]

/-- C2 counterexample: a prior record that is non-operational but carries no
`issue_start` (expressible state.json content), observed non-operational
again at time 5.  The written record keeps `issue_start` absent, while the
claim's derivation demands `now = 5`, so the claim as stated fails at this
input. -/
theorem c2_issue_start_counterexample :
    ¬ (∀ cid r, dictLookup cid
          (save_state [⟨some "bankid", some "BankID", some "major_outage"⟩]
            [("bankid", ⟨"BankID", "major_outage", 0, none⟩)] 5) = some r →
        r.issue_start = issueStartClaimOrig r.status
          (dictLookup cid [("bankid", ⟨"BankID", "major_outage", 0, none⟩)]) 5) := by
  intro h
  exact absurd (h "bankid" ⟨"BankID", "major_outage", 5, none⟩ (by decide)) (by decide)

/-- C2 witness: a fresh degradation at time 7 from empty prior state gets
`issue_start = 7`, matching the amended derivation. -/
theorem c2_issue_start_witness :
    (⟨"BankID", "major_outage", 7, some 7⟩ : StateRecord).issue_start
      = issueStartClaim
          (⟨"BankID", "major_outage", 7, some 7⟩ : StateRecord).status
          (dictLookup "bankid" ([] : PersistedState)) 7 :=
  c2_issue_start_amended [⟨some "bankid", some "BankID", some "major_outage"⟩] [] 7
    "bankid" ⟨"BankID", "major_outage", 7, some 7⟩ (by decide)

theorem nonOpAt_of_applyRuns_lookup {r1 : RunStep} {older2 : List RunStep}
    {cid : String} {old : StateRecord}
    (h : dictLookup cid (applyRuns (r1 :: older2)) = some old) :
    nonOpAt r1 cid = (old.status != "operational") := by
  have h' : dictLookup cid (save_state r1.snap (applyRuns older2) r1.now) = some old := h
  rw [dictLookup_save_state] at h'
  cases hs : snapLookup cid r1.snap with
  | none => rw [hs] at h'; simp at h'
  | some c1 =>
    rw [hs] at h'
    simp only [Option.map_some', Option.some.injEq] at h'
    unfold nonOpAt
    rw [hs, ← h', saveStateRecord_status]

theorem nonOpAt_of_applyRuns_lookup_none {r1 : RunStep} {older2 : List RunStep}
    {cid : String} (h : dictLookup cid (applyRuns (r1 :: older2)) = none) :
    nonOpAt r1 cid = false := by
  have h' : dictLookup cid (save_state r1.snap (applyRuns older2) r1.now) = none := h
  rw [dictLookup_save_state] at h'
  cases hs : snapLookup cid r1.snap with
  | none => unfold nonOpAt; rw [hs]
  | some c1 => rw [hs] at h'; simp at h'

theorem spanBegin_zero (r0 : RunStep) (older : List RunStep) (cid : String)
    (h0 : nonOpAt r0 cid = true)
    (hbd : ((r0 :: older).get? 1).all (fun r => ! nonOpAt r cid) = true) :
    SpanBegin (r0 :: older) cid r0.now := by
  refine ⟨0, ⟨r0, rfl, rfl⟩, ?_, hbd⟩
  intro j hj
  obtain rfl : j = 0 := Nat.le_zero.mp hj
  exact ⟨r0, rfl, h0⟩

theorem spanBegin_lift (r0 : RunStep) (older : List RunStep) (cid : String) (t : Nat)
    (h0 : nonOpAt r0 cid = true) (hsp : SpanBegin older cid t) :
    SpanBegin (r0 :: older) cid t := by
  obtain ⟨i, ⟨ri, hget, hnow⟩, hall, hbd⟩ := hsp
  refine ⟨i + 1, ⟨ri, ?_, hnow⟩, ?_, ?_⟩
  · rw [List.get?_cons_succ]; exact hget
  · intro j hj
    cases j with
    | zero => exact ⟨r0, rfl, h0⟩
    | succ j' =>
      obtain ⟨rj, hg, hn⟩ := hall j' (Nat.succ_le_succ_iff.mp hj)
      exact ⟨rj, by rw [List.get?_cons_succ]; exact hg, hn⟩
  · rw [List.get?_cons_succ]; exact hbd

/-- C3: in every state reachable by a trace of runs from the empty state
(trace listed most recent first), a record carries `issue_start` exactly
when its status is non-operational, and the carried timestamp is the time
of the run at which the component's current uninterrupted non-operational
span began. -/
theorem c3_issue_start_span (runs : List RunStep) (cid : String) (r : StateRecord)
    (h : dictLookup cid (applyRuns runs) = some r) :
    (r.issue_start.isSome = true ↔ r.status ≠ "operational")
    ∧ (∀ t, r.issue_start = some t → SpanBegin runs cid t) := by
  induction runs generalizing cid r with
  | nil => simp [applyRuns, dictLookup] at h
  | cons r0 older ih =>
    have h' : dictLookup cid (save_state r0.snap (applyRuns older) r0.now) = some r := h
    rw [dictLookup_save_state] at h'
    cases hs : snapLookup cid r0.snap with
    | none => rw [hs] at h'; simp at h'
    | some c =>
      rw [hs] at h'
      simp only [Option.map_some', Option.some.injEq] at h'
      subst h'
      have hcid : compId c = cid := snapLookup_compId hs
      rw [saveStateRecord_status, saveStateRecord_issue_start, hcid]
      have hnonop : compStatus c ≠ "operational" → nonOpAt r0 cid = true := by
        intro hop
        unfold nonOpAt
        rw [hs]
        exact bne_iff_ne.mpr hop
      by_cases hop : compStatus c = "operational"
      · cases hp : dictLookup cid (applyRuns older) with
        | none => simp [hop]
        | some old => simp [hop]
      · cases hp : dictLookup cid (applyRuns older) with
        | none =>
          refine ⟨by simp [hop], ?_⟩
          intro t ht
          have ht' : (if compStatus c ≠ "operational" then some r0.now else none)
              = some t := ht
          rw [if_pos hop] at ht'
          obtain rfl : r0.now = t := Option.some.inj ht'
          refine spanBegin_zero r0 older cid (hnonop hop) ?_
          cases older with
          | nil => rfl
          | cons r1 older2 =>
            have hz := nonOpAt_of_applyRuns_lookup_none hp
            simp [List.get?_cons_succ, hz]
        | some old =>
          obtain ⟨iff_old, span_old⟩ := ih cid old hp
          by_cases hos : old.status = "operational"
          · refine ⟨by simp [hop, hos], ?_⟩
            intro t ht
            have ht' : (if old.status = "operational" ∧ compStatus c ≠ "operational"
                then some r0.now
                else if compStatus c ≠ "operational" ∧ old.issue_start.isSome = true
                  then old.issue_start else none) = some t := ht
            rw [if_pos ⟨hos, hop⟩] at ht'
            obtain rfl : r0.now = t := Option.some.inj ht'
            refine spanBegin_zero r0 older cid (hnonop hop) ?_
            cases older with
            | nil => simp [applyRuns, dictLookup] at hp
            | cons r1 older2 =>
              have hz := nonOpAt_of_applyRuns_lookup hp
              rw [hos] at hz
              simp only [List.get?_cons_succ]
              simp [hz]
          · have hsome : old.issue_start.isSome = true := iff_old.mpr hos
            refine ⟨by simp [hop, hos, hsome], ?_⟩
            intro t ht
            have ht' : (if old.status = "operational" ∧ compStatus c ≠ "operational"
                then some r0.now
                else if compStatus c ≠ "operational" ∧ old.issue_start.isSome = true
                  then old.issue_start else none) = some t := ht
            rw [if_neg (fun hcp : _ ∧ _ => hos hcp.1), if_pos ⟨hop, hsome⟩] at ht'
            exact spanBegin_lift r0 older cid t (hnonop hop) (span_old t ht')

/-- C3 witness: after the fixture trace the persisted record carries
`issue_start = 4`, and the invariant applied to it certifies both the
presence iff non-operational and that 4 begins the span. -/
theorem c3_issue_start_span_witness :
    ((⟨"BankID", "major_outage", 9, some 4⟩ : StateRecord).issue_start.isSome = true)
    ∧ SpanBegin c3RunsFixture "bankid" 4 := by
  have h := c3_issue_start_span c3RunsFixture "bankid"
    ⟨"BankID", "major_outage", 9, some 4⟩ (by decide)
  exact ⟨h.1.mpr (by decide), h.2 4 rfl⟩

theorem snapLookup_eq_none {cid : String} {S : List Component}
    (h : cid ∉ S.map compId) : snapLookup cid S = none := by
  induction S with
  | nil => rfl
  | cons hd tl ih =>
    simp only [List.map_cons, List.mem_cons, not_or] at h
    obtain ⟨h1, h2⟩ := h
    simp only [snapLookup, ih h2]
    rw [if_neg (fun he => h1 he.symm)]

theorem snapLookup_self {S : List Component} (hnd : (S.map compId).Nodup)
    {c : Component} (hc : c ∈ S) : snapLookup (compId c) S = some c := by
  induction S with
  | nil => cases hc
  | cons hd tl ih =>
    rw [List.map_cons, List.nodup_cons] at hnd
    obtain ⟨hhd, htl⟩ := hnd
    cases hc with
    | head =>
      simp [snapLookup, snapLookup_eq_none hhd]
    | tail _ hmem =>
      simp only [snapLookup, ih htl hmem]

theorem saveStateRecord_eq (P : PersistedState) (now : Nat) (c : Component) :
    saveStateRecord P now c
      = ⟨compName c, compStatus c, now, (saveStateRecord P now c).issue_start⟩ := by
  unfold saveStateRecord
  split <;> split_ifs <;> rfl

theorem saveStateRecord_issue_start_op (P : PersistedState) (now : Nat) (c : Component)
    (hop : compStatus c = "operational") :
    (saveStateRecord P now c).issue_start = none := by
  rw [saveStateRecord_issue_start]
  cases dictLookup (compId c) P with
  | none => simp [hop]
  | some old => simp [hop]

/-- Re-deriving a record against a state that already holds this
component's fresh record only refreshes `last_updated`. -/
theorem saveStateRecord_repeat (P Q : PersistedState) (now1 now2 : Nat) (c : Component)
    (hQ : dictLookup (compId c) Q = some (saveStateRecord P now1 c)) :
    saveStateRecord Q now2 c
      = { saveStateRecord P now1 c with last_updated := now2 } := by
  rw [saveStateRecord_eq Q now2 c]
  show _ = StateRecord.mk (saveStateRecord P now1 c).name (saveStateRecord P now1 c).status
    now2 (saveStateRecord P now1 c).issue_start
  rw [saveStateRecord_name, saveStateRecord_status]
  congr 1
  rw [saveStateRecord_issue_start, hQ]
  by_cases hop : compStatus c = "operational"
  · simp [saveStateRecord_status, hop, saveStateRecord_issue_start_op P now1 c hop]
  · cases hri : (saveStateRecord P now1 c).issue_start with
    | some t => simp [saveStateRecord_status, hop, hri]
    | none => simp [saveStateRecord_status, hop, hri]

theorem dictInsert_map_val (g : StateRecord → StateRecord) (k : String) (v : StateRecord)
    (l : List (String × StateRecord)) :
    dictInsert k (g v) (l.map (fun kr => (kr.1, g kr.2)))
      = (dictInsert k v l).map (fun kr => (kr.1, g kr.2)) := by
  induction l with
  | nil => rfl
  | cons hd tl ih =>
    obtain ⟨a, b⟩ := hd
    simp only [List.map_cons, dictInsert]
    by_cases hak : a = k
    · simp [hak]
    · simp [hak, ih]

theorem save_state_foldl_map (g : StateRecord → StateRecord)
    (rec1 rec2 : Component → StateRecord) (S : List Component)
    (h : ∀ c ∈ S, rec2 c = g (rec1 c)) :
    ∀ acc : List (String × StateRecord),
      S.foldl (fun ns c => dictInsert (compId c) (rec2 c) ns)
          (acc.map (fun kr => (kr.1, g kr.2)))
        = (S.foldl (fun ns c => dictInsert (compId c) (rec1 c) ns) acc).map
            (fun kr => (kr.1, g kr.2)) := by
  induction S with
  | nil => intro acc; rfl
  | cons hd tl ih =>
    intro acc
    simp only [List.foldl_cons]
    rw [h hd (List.mem_cons_self _ _), dictInsert_map_val]
    exact ih (fun c hc => h c (List.mem_cons_of_mem _ hc)) _

/-- Saving the same snapshot twice in a row: the second save only refreshes
every `last_updated` (snapshot ids assumed distinct, as in a status feed). -/
theorem save_state_repeat (S : List Component) (P : PersistedState) (now1 now2 : Nat)
    (hnd : (S.map compId).Nodup) :
    save_state S (save_state S P now1) now2
      = (save_state S P now1).map
          (fun kr => (kr.1, { kr.2 with last_updated := now2 })) := by
  have hcomp : ∀ c ∈ S, saveStateRecord (save_state S P now1) now2 c
      = { saveStateRecord P now1 c with last_updated := now2 } := by
    intro c hc
    refine saveStateRecord_repeat P (save_state S P now1) now1 now2 c ?_
    rw [dictLookup_save_state, snapLookup_self hnd hc, Option.map_some']
  show S.foldl (fun ns c =>
      dictInsert (compId c) (saveStateRecord (save_state S P now1) now2 c) ns) [] = _
  have hinit : ([] : List (String × StateRecord))
      = ([] : List (String × StateRecord)).map
          (fun kr => (kr.1, { kr.2 with last_updated := now2 })) := rfl
  rw [hinit, save_state_foldl_map (fun r => { r with last_updated := now2 })
    (saveStateRecord P now1) (saveStateRecord (save_state S P now1) now2) S hcomp []]
  rfl

theorem mem_dictInsert {α : Type} {x : String × α} {k : String} {v : α}
    {l : List (String × α)} (h : x ∈ dictInsert k v l) : x = (k, v) ∨ x ∈ l := by
  induction l with
  | nil => simpa [dictInsert] using h
  | cons hd tl ih =>
    obtain ⟨a, b⟩ := hd
    simp only [dictInsert] at h
    by_cases hak : a = k
    · rw [if_pos hak] at h
      cases h with
      | head => exact Or.inl rfl
      | tail _ hm => exact Or.inr (List.mem_cons_of_mem _ hm)
    · rw [if_neg hak] at h
      cases h with
      | head => exact Or.inr (List.mem_cons_self _ _)
      | tail _ hm =>
        rcases ih hm with h1 | h2
        · exact Or.inl h1
        · exact Or.inr (List.mem_cons_of_mem _ h2)

theorem last_updated_foldl (P : PersistedState) (now : Nat) (S : List Component) :
    ∀ acc : List (String × StateRecord), (∀ y ∈ acc, y.2.last_updated = now) →
      ∀ x ∈ S.foldl (fun ns c => dictInsert (compId c) (saveStateRecord P now c) ns) acc,
        x.2.last_updated = now := by
  induction S with
  | nil => intro acc hacc x hx; exact hacc x hx
  | cons hd tl ih =>
    intro acc hacc x hx
    simp only [List.foldl_cons] at hx
    refine ih _ ?_ x hx
    intro y hy
    rcases mem_dictInsert hy with h1 | h2
    · rw [h1]; exact saveStateRecord_last_updated P now hd
    · exact hacc y h2

theorem map_eq_self_of {α : Type} {l : List α} {f : α → α} (h : ∀ x ∈ l, f x = x) :
    l.map f = l := by
  induction l with
  | nil => rfl
  | cons hd tl ih =>
    rw [List.map_cons, h hd (List.mem_cons_self _ _),
      ih (fun x hx => h x (List.mem_cons_of_mem _ hx))]

theorem save_state_map_self (S : List Component) (P : PersistedState) (now : Nat) :
    (save_state S P now).map (fun kr => (kr.1, { kr.2 with last_updated := now }))
      = save_state S P now := by
  refine map_eq_self_of ?_
  intro x hx
  have hlu : x.2.last_updated = now :=
    last_updated_foldl P now S [] (by intro y hy; cases hy) x hx
  obtain ⟨k, r⟩ := x
  obtain ⟨n, s, lu, is⟩ := r
  simp only at hlu
  rw [hlu]

theorem processComponent_steady (st : PersistedState) (config_map : ConfigMap)
    (now : Nat) (c : Component) (r : StateRecord)
    (hr : dictLookup (compId c) st = some r) (hst : r.status = compStatus c) :
    processComponent st config_map now c = some (none, false) := by
  unfold processComponent
  by_cases he : resolvedEnabled config_map (compId c) = false
  · rw [if_pos he]
  · rw [if_neg he, hr]
    have h1 : ¬(r.status = "operational" ∧ compStatus c ≠ "operational"
        ∧ "degradation" ∈ resolvedNotifyOn config_map (compId c)) := by
      rintro ⟨ha, hb, -⟩
      exact hb (hst ▸ ha)
    have h2 : ¬(r.status ≠ "operational" ∧ compStatus c = "operational"
        ∧ "recovery" ∈ resolvedNotifyOn config_map (compId c)) := by
      rintro ⟨ha, hb, -⟩
      exact ha (hst.trans hb)
    simp [h1, h2]

theorem checkComponentsLoop_all_steady (st : PersistedState) (config_map : ConfigMap)
    (now : Nat) (S : List Component)
    (h : ∀ c ∈ S, processComponent st config_map now c = some (none, false)) :
    checkComponentsLoop st config_map now S = some ([], false) := by
  induction S with
  | nil => rfl
  | cons hd tl ih =>
    simp only [checkComponentsLoop]
    rw [h hd (List.mem_cons_self _ _), ih (fun c hc => h c (List.mem_cons_of_mem _ hc))]
    rfl

/-- C5 (amended): feeding the state written by one run back as the prior
state and processing the same snapshot again (with pairwise-distinct
component ids) attempts no notification, reports no issues, and rewrites
the same state with only `last_updated` refreshed to the second run's
time; when the two runs carry the same timestamp the persisted state is
literally unchanged. -/
theorem c5_idempotent (S : List Component) (P : PersistedState) (config_map : ConfigMap)
    (now1 now2 : Nat) (hnd : (S.map compId).Nodup) :
    check_components S (save_state S P now1) config_map now2
      = some ([], false,
          (save_state S P now1).map
            (fun kr => (kr.1, { kr.2 with last_updated := now2 })))
    ∧ (now2 = now1 → check_components S (save_state S P now1) config_map now2
        = some ([], false, save_state S P now1)) := by
  have hsteady : ∀ c ∈ S,
      processComponent (save_state S P now1) config_map now2 c = some (none, false) := by
    intro c hc
    refine processComponent_steady _ _ _ _ (saveStateRecord P now1 c) ?_ ?_
    · rw [dictLookup_save_state, snapLookup_self hnd hc, Option.map_some']
    · exact saveStateRecord_status P now1 c
  have hloop := checkComponentsLoop_all_steady (save_state S P now1) config_map now2 S hsteady
  have hmain : check_components S (save_state S P now1) config_map now2
      = some ([], false,
          (save_state S P now1).map
            (fun kr => (kr.1, { kr.2 with last_updated := now2 }))) := by
    unfold check_components
    rw [hloop, Option.map_some', save_state_repeat S P now1 now2 hnd]
  refine ⟨hmain, ?_⟩
  intro hnow
  subst hnow
  rw [hmain, save_state_map_self]

set_option maxRecDepth 65536 in
/-- C5 counterexample: with a duplicated id in the snapshot the second run
is not all-`none` — it attempts a degradation notification, refuting "the
second run attempts no notification"; and even without duplicates a later
second run does not leave the persisted state unchanged (`last_updated`
moves), refuting "the persisted state after the second run equals the state
after the first run". -/
theorem c5_idempotent_counterexample :
    (check_components c5DupSnap (save_state c5DupSnap [] 0) [] 0).map (fun r => r.1)
      ≠ some []
    ∧ (check_components [⟨some "bankid", some "BankID", some "major_outage"⟩]
          (save_state [⟨some "bankid", some "BankID", some "major_outage"⟩] [] 0) [] 60).map
        (fun r => r.2.2)
      ≠ some (save_state [⟨some "bankid", some "BankID", some "major_outage"⟩] [] 0) := by
  refine ⟨by decide, by decide⟩

set_option maxRecDepth 65536 in
/-- C5 witness: a one-component snapshot reprocessed at time 5 against the
state saved at time 3 yields no sends, no issues, and the same record with
`last_updated` advanced. -/
theorem c5_idempotent_witness :
    check_components [⟨some "bankid", some "BankID", some "major_outage"⟩]
        (save_state [⟨some "bankid", some "BankID", some "major_outage"⟩] [] 3) [] 5
      = some ([], false, [("bankid", ⟨"BankID", "major_outage", 5, some 3⟩)]) := by
  have h := (c5_idempotent [⟨some "bankid", some "BankID", some "major_outage"⟩]
    [] [] 3 5 (by decide)).1
  exact h.trans (by decide)

theorem bool_eq_false {b : Bool} (h : ¬b = true) : b = false := by
  cases b
  · rfl
  · exact absurd rfl h

theorem processComponent_eq_lookup_some (P : PersistedState) (config_map : ConfigMap)
    (now : Nat) (c : Component) (prev : StateRecord)
    (hp : dictLookup (compId c) P = some prev) :
    processComponent P config_map now c
      = if resolvedEnabled config_map (compId c) = false then some (none, false)
        else if prev.status = "operational" ∧ compStatus c ≠ "operational"
            ∧ "degradation" ∈ resolvedNotifyOn config_map (compId c) then
          match get_message (compId c) (compName c) (compStatus c) (some prev.status)
              "degradation" config_map P now with
          | some tm => some (some ⟨compId c, "degradation", tm.1, tm.2⟩, true)
          | none => none
        else if prev.status ≠ "operational" ∧ compStatus c = "operational"
            ∧ "recovery" ∈ resolvedNotifyOn config_map (compId c) then
          match get_message (compId c) (compName c) (compStatus c) (some prev.status)
              "recovery" config_map P now with
          | some tm => some (some ⟨compId c, "recovery", tm.1, tm.2⟩, false)
          | none => none
        else some (none, false) := by
  unfold processComponent
  rw [hp]

theorem processComponent_eq_lookup_none (P : PersistedState) (config_map : ConfigMap)
    (now : Nat) (c : Component)
    (hp : dictLookup (compId c) P = none) :
    processComponent P config_map now c
      = if resolvedEnabled config_map (compId c) = false then some (none, false)
        else if compStatus c ≠ "operational"
            ∧ "degradation" ∈ resolvedNotifyOn config_map (compId c) then
          match get_message (compId c) (compName c) (compStatus c) none
              "degradation" config_map P now with
          | some tm => some (some ⟨compId c, "degradation", tm.1, tm.2⟩, true)
          | none => none
        else some (none, false) := by
  unfold processComponent
  rw [hp]

/-- What `processComponent` yields, characterized by the claim-side
conditions: a send is present exactly under `notifAttemptCond`, carrying
this component's id and transition kind, and the `issues_found` bit is
exactly `issuesFlagCond`. -/
theorem processComponent_spec (P : PersistedState) (config_map : ConfigMap) (now : Nat)
    (c : Component) (hwf : wfConfigMap config_map = true) :
    ∃ s issue, processComponent P config_map now c = some (s, issue)
      ∧ s.map SendRec.component_id
          = (if notifAttemptCond P config_map c = true then some (compId c) else none)
      ∧ s.map SendRec.message_type
          = (if notifAttemptCond P config_map c = true then some (kindFor P c) else none)
      ∧ issue = issuesFlagCond P config_map c := by
  by_cases he : resolvedEnabled config_map (compId c) = false
  · have hct : notifAttemptCond P config_map c = false := by
      simp [notifAttemptCond, he]
    have hfl : issuesFlagCond P config_map c = false := by
      simp [issuesFlagCond, he]
    refine ⟨none, false, ?_, by simp [hct], by simp [hct], by rw [hfl]⟩
    cases hp : dictLookup (compId c) P with
    | some prev => rw [processComponent_eq_lookup_some P config_map now c prev hp, if_pos he]
    | none => rw [processComponent_eq_lookup_none P config_map now c hp, if_pos he]
  · have he' : resolvedEnabled config_map (compId c) = true := by
      cases hb : resolvedEnabled config_map (compId c)
      · exact absurd hb he
      · rfl
    cases hp : dictLookup (compId c) P with
    | some prev =>
      have hpc := processComponent_eq_lookup_some P config_map now c prev hp
      rw [if_neg he] at hpc
      have hcond : notifAttemptCond P config_map c
          = (((prev.status == "operational") && (compStatus c != "operational")
              && (resolvedNotifyOn config_map (compId c)).contains "degradation")
            || ((prev.status != "operational") && (compStatus c == "operational")
              && (resolvedNotifyOn config_map (compId c)).contains "recovery")) := by
        simp [notifAttemptCond, hp, he']
      have hflag : issuesFlagCond P config_map c
          = ((compStatus c != "operational")
              && (resolvedNotifyOn config_map (compId c)).contains "degradation"
              && (prev.status == "operational")) := by
        simp [issuesFlagCond, hp, he']
      have hkind : kindFor P c
          = (if prev.status ≠ "operational" ∧ compStatus c = "operational"
              then "recovery" else "degradation") := by
        simp [kindFor, hp]
      by_cases h1 : prev.status = "operational" ∧ compStatus c ≠ "operational"
          ∧ "degradation" ∈ resolvedNotifyOn config_map (compId c)
      · have hct : notifAttemptCond P config_map c = true := by
          rw [hcond]
          simp only [Bool.or_eq_true, Bool.and_eq_true, beq_iff_eq, bne_iff_ne,
            List.contains, List.elem_eq_mem, decide_eq_true_eq]
          exact Or.inl ⟨⟨h1.1, h1.2.1⟩, h1.2.2⟩
        have hk : kindFor P c = "degradation" := by
          rw [hkind, if_neg]
          rintro ⟨ha, -⟩
          exact ha h1.1
        have hfl : issuesFlagCond P config_map c = true := by
          rw [hflag]
          simp only [Bool.and_eq_true, beq_iff_eq, bne_iff_ne, List.contains,
            List.elem_eq_mem, decide_eq_true_eq]
          exact ⟨⟨h1.2.1, h1.2.2⟩, h1.1⟩
        have hgm := get_message_isSome (compId c) (compName c) (compStatus c)
          (some prev.status) "degradation" config_map P now hwf
        obtain ⟨tm, htm⟩ := Option.isSome_iff_exists.mp hgm
        exact ⟨some ⟨compId c, "degradation", tm.1, tm.2⟩, true,
          by rw [hpc, if_pos h1, htm],
          by rw [hct]; rfl,
          by rw [hct, hk]; rfl,
          by rw [hfl]⟩
      · by_cases h2 : prev.status ≠ "operational" ∧ compStatus c = "operational"
            ∧ "recovery" ∈ resolvedNotifyOn config_map (compId c)
        · have hct : notifAttemptCond P config_map c = true := by
            rw [hcond]
            simp only [Bool.or_eq_true, Bool.and_eq_true, beq_iff_eq, bne_iff_ne,
              List.contains, List.elem_eq_mem, decide_eq_true_eq]
            exact Or.inr ⟨⟨h2.1, h2.2.1⟩, h2.2.2⟩
          have hk : kindFor P c = "recovery" := by
            rw [hkind, if_pos ⟨h2.1, h2.2.1⟩]
          have hfl : issuesFlagCond P config_map c = false := by
            rw [hflag]
            have hb : (prev.status == "operational") = false :=
              beq_eq_false_iff_ne.mpr h2.1
            rw [hb, Bool.and_false]
          have hgm := get_message_isSome (compId c) (compName c) (compStatus c)
            (some prev.status) "recovery" config_map P now hwf
          obtain ⟨tm, htm⟩ := Option.isSome_iff_exists.mp hgm
          exact ⟨some ⟨compId c, "recovery", tm.1, tm.2⟩, false,
            by rw [hpc, if_neg h1, if_pos h2, htm],
            by rw [hct]; rfl,
            by rw [hct, hk]; rfl,
            by rw [hfl]⟩
        · have hct : notifAttemptCond P config_map c = false := by
            apply bool_eq_false
            rw [hcond]
            simp only [Bool.or_eq_true, Bool.and_eq_true, beq_iff_eq, bne_iff_ne,
              List.contains, List.elem_eq_mem, decide_eq_true_eq]
            rintro (⟨⟨ha, hb⟩, hc⟩ | ⟨⟨ha, hb⟩, hc⟩)
            · exact h1 ⟨ha, hb, hc⟩
            · exact h2 ⟨ha, hb, hc⟩
          have hfl : issuesFlagCond P config_map c = false := by
            apply bool_eq_false
            rw [hflag]
            simp only [Bool.and_eq_true, beq_iff_eq, bne_iff_ne, List.contains,
              List.elem_eq_mem, decide_eq_true_eq]
            rintro ⟨⟨ha, hb⟩, hc⟩
            exact h1 ⟨hc, ha, hb⟩
          exact ⟨none, false,
            by rw [hpc, if_neg h1, if_neg h2],
            by simp [hct], by simp [hct], by rw [hfl]⟩
    | none =>
      have hpc := processComponent_eq_lookup_none P config_map now c hp
      rw [if_neg he] at hpc
      have hcond : notifAttemptCond P config_map c
          = ((compStatus c != "operational")
              && (resolvedNotifyOn config_map (compId c)).contains "degradation") := by
        simp [notifAttemptCond, hp, he']
      have hflag : issuesFlagCond P config_map c
          = ((compStatus c != "operational")
              && (resolvedNotifyOn config_map (compId c)).contains "degradation") := by
        simp [issuesFlagCond, hp, he']
      have hkind : kindFor P c = "degradation" := by
        simp [kindFor, hp]
      by_cases h1 : compStatus c ≠ "operational"
          ∧ "degradation" ∈ resolvedNotifyOn config_map (compId c)
      · have hct : notifAttemptCond P config_map c = true := by
          rw [hcond]
          simp only [Bool.and_eq_true, beq_iff_eq, bne_iff_ne, List.contains,
            List.elem_eq_mem, decide_eq_true_eq]
          exact ⟨h1.1, h1.2⟩
        have hfl : issuesFlagCond P config_map c = true := by
          rw [hflag]
          simp only [Bool.and_eq_true, beq_iff_eq, bne_iff_ne, List.contains,
            List.elem_eq_mem, decide_eq_true_eq]
          exact ⟨h1.1, h1.2⟩
        have hgm := get_message_isSome (compId c) (compName c) (compStatus c)
          none "degradation" config_map P now hwf
        obtain ⟨tm, htm⟩ := Option.isSome_iff_exists.mp hgm
        exact ⟨some ⟨compId c, "degradation", tm.1, tm.2⟩, true,
          by rw [hpc, if_pos h1, htm],
          by rw [hct]; rfl,
          by rw [hct, hkind]; rfl,
          by rw [hfl]⟩
      · have hct : notifAttemptCond P config_map c = false := by
          apply bool_eq_false
          rw [hcond]
          simp only [Bool.and_eq_true, beq_iff_eq, bne_iff_ne, List.contains,
            List.elem_eq_mem, decide_eq_true_eq]
          rintro ⟨ha, hb⟩
          exact h1 ⟨ha, hb⟩
        have hfl : issuesFlagCond P config_map c = false := by
          apply bool_eq_false
          rw [hflag]
          simp only [Bool.and_eq_true, beq_iff_eq, bne_iff_ne, List.contains,
            List.elem_eq_mem, decide_eq_true_eq]
          rintro ⟨ha, hb⟩
          exact h1 ⟨ha, hb⟩
        exact ⟨none, false,
          by rw [hpc, if_neg h1],
          by simp [hct], by simp [hct], by rw [hfl]⟩

/-- The whole loop: sends in snapshot order, one per component satisfying
`notifAttemptCond`, and `issues_found` as the disjunction of
`issuesFlagCond` over the snapshot. -/
theorem checkComponentsLoop_spec (P : PersistedState) (config_map : ConfigMap)
    (now : Nat) (S : List Component) (hwf : wfConfigMap config_map = true) :
    ∃ sends issues, checkComponentsLoop P config_map now S = some (sends, issues)
      ∧ sends.map SendRec.component_id
          = S.filterMap (fun c =>
              if notifAttemptCond P config_map c = true then some (compId c) else none)
      ∧ sends.map (fun s => (s.component_id, s.message_type))
          = S.filterMap (fun c =>
              if notifAttemptCond P config_map c = true
              then some (compId c, kindFor P c) else none)
      ∧ issues = S.any (fun c => issuesFlagCond P config_map c) := by
  induction S with
  | nil => exact ⟨[], false, rfl, rfl, rfl, rfl⟩
  | cons hd tl ih =>
    obtain ⟨sends, issues, hloop, hids, hpairs, hiss⟩ := ih
    obtain ⟨s, issue, hps, hid1, hid2, hifl⟩ := processComponent_spec P config_map now hd hwf
    refine ⟨s.toList ++ sends, issue || issues, ?_, ?_, ?_, ?_⟩
    · simp only [checkComponentsLoop]
      rw [hps, hloop]
    · by_cases hc : notifAttemptCond P config_map hd = true
      · rw [if_pos hc] at hid1
        cases s with
        | none => simp at hid1
        | some x =>
          simp only [Option.map_some', Option.some.injEq] at hid1
          simp [List.filterMap_cons, hc, hid1, hids]
      · rw [if_neg hc] at hid1
        cases s with
        | none => simp [List.filterMap_cons, hc, hids]
        | some x => simp at hid1
    · by_cases hc : notifAttemptCond P config_map hd = true
      · rw [if_pos hc] at hid1 hid2
        cases s with
        | none => simp at hid2
        | some x =>
          simp only [Option.map_some', Option.some.injEq] at hid1 hid2
          simp [List.filterMap_cons, hc, hid1, hid2, hpairs]
      · rw [if_neg hc] at hid2
        cases s with
        | none => simp [List.filterMap_cons, hc, hpairs]
        | some x => simp at hid2
    · rw [List.any_cons, hifl, hiss]

theorem filterMap_if_eq_filter_map (p : Component → Bool) (f : Component → String)
    (l : List Component) :
    l.filterMap (fun c => if p c = true then some (f c) else none)
      = (l.filter p).map f := by
  induction l with
  | nil => rfl
  | cons hd tl ih =>
    by_cases hc : p hd = true
    · simp [List.filterMap_cons, List.filter_cons, hc, ih]
    · simp [List.filterMap_cons, List.filter_cons, hc, ih]

/-- `check_components` under a well-formed configuration: the run completes,
persists `save_state`, attempts exactly the `notifAttemptCond` sends, and
reports `issues_found` as `issuesFlagCond` over the snapshot. -/
theorem check_components_spec (S : List Component) (P : PersistedState)
    (config_map : ConfigMap) (now : Nat) (hwf : wfConfigMap config_map = true) :
    ∃ sends issues,
      check_components S P config_map now = some (sends, issues, save_state S P now)
      ∧ sends.map SendRec.component_id
          = (S.filter (fun c => notifAttemptCond P config_map c)).map compId
      ∧ issues = S.any (fun c => issuesFlagCond P config_map c) := by
  obtain ⟨sends, issues, hl, hids, -, hiss⟩ :=
    checkComponentsLoop_spec P config_map now S hwf
  refine ⟨sends, issues, ?_, ?_, hiss⟩
  · unfold check_components
    rw [hl, Option.map_some']
  · rw [hids, filterMap_if_eq_filter_map]

/-- C1 (amended): under a configuration whose custom templates reference
only defined parameters, a run completes and attempts a notification for
exactly those
snapshot components whose policy is enabled and which fall in one of the
three notifying cases — prior record operational and now degraded with
"degradation" subscribed, prior record degraded and now operational with
"recovery" subscribed, or absent from the prior state and degraded with
"degradation" subscribed; every other component attempts none. -/
theorem c1_notification_gating (S : List Component) (P : PersistedState)
    (config_map : ConfigMap) (now : Nat) (hwf : wfConfigMap config_map = true) :
    ∃ sends issues,
      check_components S P config_map now = some (sends, issues, save_state S P now)
      ∧ sends.map SendRec.component_id
          = (S.filter (fun c => notifAttemptCond P config_map c)).map compId := by
  obtain ⟨sends, issues, h1, h2, -⟩ := check_components_spec S P config_map now hwf
  exact ⟨sends, issues, h1, h2⟩

set_option maxRecDepth 65536 in
/-- C1 witness: a snapshot with one newly degraded and one steady
operational component against the empty prior state attempts exactly the
degraded component's notification. -/
theorem c1_notification_gating_witness :
    (∃ sends issues,
      check_components
          [⟨some "bankid", some "BankID", some "major_outage"⟩,
           ⟨some "id-check", some "ID check", some "operational"⟩]
          [] [] 2
        = some (sends, issues,
            save_state
              [⟨some "bankid", some "BankID", some "major_outage"⟩,
               ⟨some "id-check", some "ID check", some "operational"⟩] [] 2)
      ∧ sends.map SendRec.component_id
          = (([⟨some "bankid", some "BankID", some "major_outage"⟩,
               ⟨some "id-check", some "ID check", some "operational"⟩]
              : List Component).filter (fun c => notifAttemptCond [] [] c)).map compId)
    ∧ (([⟨some "bankid", some "BankID", some "major_outage"⟩,
         ⟨some "id-check", some "ID check", some "operational"⟩]
        : List Component).filter (fun c => notifAttemptCond [] [] c)).map compId
      = ["bankid"] := by
  refine ⟨c1_notification_gating _ [] [] 2 (by decide), by decide⟩

/-- C4 (amended): after a completed run, `issues_found` is true exactly when
some snapshot component is enabled, subscribed to "degradation", currently
non-operational, and either new to the prior state or previously
operational — a component that was already degraded does not raise the
flag. -/
theorem c4_issues_flag (S : List Component) (P : PersistedState)
    (config_map : ConfigMap) (now : Nat) (hwf : wfConfigMap config_map = true) :
    ∃ sends issues st, check_components S P config_map now = some (sends, issues, st)
      ∧ issues = S.any (fun c => issuesFlagCond P config_map c) := by
  obtain ⟨sends, issues, h1, -, h3⟩ := check_components_spec S P config_map now hwf
  exact ⟨sends, issues, save_state S P now, h1, h3⟩

set_option maxRecDepth 65536 in
/-- C4 counterexample: a component that stays in major outage across two
runs is non-operational and in no way suppressed (default policy), yet the
run reports `issues_found = false` where the claim demands the flag to
equal "some component is non-operational and not suppressed" (true here). -/
theorem c4_issues_flag_counterexample :
    (check_components [⟨some "bankid", some "BankID", some "major_outage"⟩]
        [("bankid", ⟨"BankID", "major_outage", 0, some 0⟩)] [] 5).map (fun r => r.2.1)
      ≠ some (([⟨some "bankid", some "BankID", some "major_outage"⟩]
          : List Component).any (fun c => issuesClaimCond [] c)) := by
  decide

set_option maxRecDepth 65536 in
/-- C4 witness: a fresh degradation from the empty prior state sets the
flag, matching the amended condition. -/
theorem c4_issues_flag_witness :
    (∃ sends issues st,
      check_components [⟨some "bankid", some "BankID", some "major_outage"⟩] [] [] 5
        = some (sends, issues, st)
      ∧ issues = ([⟨some "bankid", some "BankID", some "major_outage"⟩]
          : List Component).any (fun c => issuesFlagCond [] [] c))
    ∧ ([⟨some "bankid", some "BankID", some "major_outage"⟩]
        : List Component).any (fun c => issuesFlagCond [] [] c) = true := by
  refine ⟨c4_issues_flag _ [] [] 5 (by decide), by decide⟩

theorem contains_true_ne_nil {l : List String} {a : String}
    (h : l.contains a = true) : l ≠ [] := by
  intro hnil
  subst hnil
  simp at h

theorem notifAttemptCond_requires_policy {P : PersistedState} {config_map : ConfigMap}
    {c : Component} (h : notifAttemptCond P config_map c = true) :
    resolvedEnabled config_map (compId c) = true
    ∧ resolvedNotifyOn config_map (compId c) ≠ [] := by
  unfold notifAttemptCond at h
  rw [Bool.and_eq_true] at h
  refine ⟨h.1, ?_⟩
  have h2 := h.2
  split at h2
  · simp only [Bool.or_eq_true, Bool.and_eq_true] at h2
    rcases h2 with ⟨-, hc⟩ | ⟨-, hc⟩
    · exact contains_true_ne_nil hc
    · exact contains_true_ne_nil hc
  · simp only [Bool.and_eq_true] at h2
    exact contains_true_ne_nil h2.2

/-- C6 (amended): for configurations whose custom templates reference only
defined parameters, two runs that differ only in notification policy
persist byte-for-byte identical state, and a component whose policy is
disabled or has an empty `notify_on` gets no Notification Port invocation
while its StateRecord is written identically to the unsuppressed case. -/
theorem c6_policy_noninterference (S : List Component) (file : PersistedState)
    (cfg1 cfg2 : ConfigMap) (now : Nat)
    (hwf1 : wfConfigMap cfg1 = true) (hwf2 : wfConfigMap cfg2 = true) :
    (check_components S file cfg1 now).map (fun r => r.2.2)
      = (check_components S file cfg2 now).map (fun r => r.2.2)
    ∧ ∀ cid, (resolvedEnabled cfg2 cid = false ∨ resolvedNotifyOn cfg2 cid = []) →
        ∀ sends issues st, check_components S file cfg2 now = some (sends, issues, st) →
          (∀ s ∈ sends, s.component_id ≠ cid) ∧ dictLookup cid st = dictLookup cid (save_state S file now) := by
  obtain ⟨sends1, issues1, h1, -, -⟩ := check_components_spec S file cfg1 now hwf1
  obtain ⟨sends2, issues2, h2, hids2, -⟩ := check_components_spec S file cfg2 now hwf2
  constructor
  · rw [h1, h2]
    rfl
  · intro cid hsupp sends issues st hrun
    rw [h2] at hrun
    have heq := Option.some.inj hrun
    have hsends : sends2 = sends := congrArg Prod.fst heq
    have hst : save_state S file now = st := congrArg (fun r => r.2.2) heq
    subst hsends
    refine ⟨?_, by rw [← hst]⟩
    intro s hs hcontra
    have hmem : s.component_id ∈ sends2.map SendRec.component_id :=
      List.mem_map_of_mem _ hs
    rw [hids2, List.mem_map] at hmem
    obtain ⟨c', hc'mem, hc'id⟩ := hmem
    rw [List.mem_filter] at hc'mem
    obtain ⟨hen, hnn⟩ := notifAttemptCond_requires_policy hc'mem.2
    rw [hc'id, hcontra] at hen hnn
    rcases hsupp with hd | hd
    · rw [hd] at hen
      exact Bool.false_ne_true hen
    · rw [hd] at hnn
      exact hnn rfl

set_option maxRecDepth 65536 in
/-- C6 counterexample: two runs differing only in policy — default policy
versus a custom degradation template with an undefined placeholder — do not
persist the same state: the template failure aborts the run before
`save_state`, so the file keeps its prior (empty) content. -/
theorem c6_policy_noninterference_counterexample :
    runPersist [⟨some "bankid", some "BankID", some "major_outage"⟩] [] [] 7 WriteOutcome.ok
      ≠ runPersist [⟨some "bankid", some "BankID", some "major_outage"⟩] [] c6BadCfg 7
          WriteOutcome.ok := by
  decide

set_option maxRecDepth 65536 in
/-- C6 witness: muting a component with `notify_on = []` suppresses its
notification while the persisted state equals the default-policy run's. -/
theorem c6_policy_noninterference_witness :
    ((check_components [⟨some "bankid", some "BankID", some "major_outage"⟩] [] [] 7).map
        (fun r => r.2.2)
      = (check_components [⟨some "bankid", some "BankID", some "major_outage"⟩] []
          c6MuteCfg 7).map (fun r => r.2.2))
    ∧ (check_components [⟨some "bankid", some "BankID", some "major_outage"⟩] []
        c6MuteCfg 7).map (fun r => r.1) = some [] := by
  refine ⟨(c6_policy_noninterference
    [⟨some "bankid", some "BankID", some "major_outage"⟩] [] [] c6MuteCfg 7
    (by decide) (by decide)).1, by decide⟩

/-- C7: the duration parameter is filled only for recovery messages whose
component carries `issue_start` in the prior state — in every other case it
is the empty string — and the rendered duration is a pure function of the
two timestamps: `now - issue_start` split into days/hours/minutes, printed
largest-to-smallest with zero-valued units omitted, "less than 1m" when the
difference is below one minute (the `specDuration` reading of the spec). -/
theorem c7_duration (component_id message_type : String) (state : PersistedState)
    (now start_time : Nat) :
    (message_type ≠ "recovery" → durationParam component_id message_type state now = "")
    ∧ (dictLookup component_id state = none →
        durationParam component_id message_type state now = "")
    ∧ (∀ r, dictLookup component_id state = some r → r.issue_start = none →
        durationParam component_id message_type state now = "")
    ∧ (∀ r t, dictLookup component_id state = some r → r.issue_start = some t →
        durationParam component_id "recovery" state now
          = " (duration: " ++ format_duration t now ++ ")")
    ∧ (start_time ≤ now → format_duration start_time now = specDuration (now - start_time)) := by
  refine ⟨?_, ?_, ?_, ?_, format_duration_eq_specDuration start_time now⟩
  · intro h
    unfold durationParam
    rw [if_neg h]
  · intro h
    unfold durationParam
    by_cases ht : message_type = "recovery"
    · rw [if_pos ht, h]
    · rw [if_neg ht]
  · intro r hr his
    unfold durationParam
    by_cases ht : message_type = "recovery"
    · rw [if_pos ht, hr]
      show (match r.issue_start with
        | some t => " (duration: " ++ format_duration t now ++ ")"
        | none => "") = ""
      rw [his]
    · rw [if_neg ht]
  · intro r t hr his
    unfold durationParam
    rw [if_pos rfl, hr]
    show (match r.issue_start with
      | some u => " (duration: " ++ format_duration u now ++ ")"
      | none => "") = " (duration: " ++ format_duration t now ++ ")"
    rw [his]

/-- C7 witness: a recovery 1 day, 1 hour and 1 minute after `issue_start`
renders exactly the non-zero units, and a degradation message gets no
duration. -/
theorem c7_duration_witness :
    durationParam "bankid" "recovery"
        [("bankid", ⟨"BankID", "major_outage", 0, some 0⟩)] 90060
      = " (duration: " ++ format_duration 0 90060 ++ ")"
    ∧ format_duration 0 90060 = specDuration 90060
    ∧ format_duration 0 90060 = "1d 1h 1m"
    ∧ durationParam "bankid" "degradation"
        [("bankid", ⟨"BankID", "major_outage", 0, some 0⟩)] 90060 = "" := by
  have h := c7_duration "bankid" "degradation"
    [("bankid", ⟨"BankID", "major_outage", 0, some 0⟩)] 90060 0
  refine ⟨h.2.2.2.1 ⟨"BankID", "major_outage", 0, some 0⟩ 0 (by decide) rfl,
    h.2.2.2.2 (by decide), by decide, h.1 (by decide)⟩

/-- C8: whatever the configuration and outcome, a returned title is exactly
the fixed glyph for the message type followed by a space and the component
name; and a configured non-empty custom template changes only the body,
substituted with the same named parameters, never the title. -/
theorem c8_title_fixed (component_id component_name current_status : String)
    (prev_status : Option String) (message_type : String) (config_map : ConfigMap)
    (state : PersistedState) (now : Nat) :
    (∀ t b, get_message component_id component_name current_status prev_status message_type
          config_map state now = some (t, b) →
        t = (if message_type = "degradation" then "🔴" else "🟢") ++ " " ++ component_name)
    ∧ (∀ cm, customTemplate component_id message_type config_map = some cm →
        get_message component_id component_name current_status prev_status message_type
            config_map state now
          = (subst (mkFormatParams component_name current_status prev_status component_id
                message_type state now) cm).map
              (fun body =>
                ((if message_type = "degradation" then "🔴" else "🟢") ++ " "
                    ++ component_name, body))) := by
  constructor
  · intro t b h
    unfold get_message at h
    rcases hq : subst
        (mkFormatParams component_name current_status prev_status component_id
          message_type state now)
        ((customTemplate component_id message_type config_map).getD
          (defaultTemplate message_type prev_status)) with - | body
    · rw [hq] at h
      simp at h
    · rw [hq] at h
      simp only [Option.map_some', Option.some.injEq, Prod.mk.injEq] at h
      exact h.1.symm
  · intro cm hcm
    unfold get_message
    rw [hcm, Option.getD_some]
    rfl

set_option maxRecDepth 65536 in
/-- C8 witness (the spec's Scenario C): a custom degradation template
produces exactly the substituted body while the title keeps the default
red-glyph form. -/
theorem c8_title_fixed_witness :
    get_message "bankid" "BankID" "major_outage" none "degradation"
        [("bankid", { messages := some [("degradation",
          "\x7bname\x7d is down: \x7bstatus\x7d")] })] [] 0
      = some ("🔴 BankID", "BankID is down: major_outage") := by
  have h := (c8_title_fixed "bankid" "BankID" "major_outage" none "degradation"
    [("bankid", { messages := some [("degradation",
      "\x7bname\x7d is down: \x7bstatus\x7d")] })] [] 0).2
    "\x7bname\x7d is down: \x7bstatus\x7d" (by decide)
  exact h.trans (by decide)

/-- C9: both notification adapters convert every exception and every HTTP
error status to the return value `false` (Slack additionally treats a
response whose own `ok` flag is false as failure), and the engine's
attempted sends, issues flag and persisted state are the same whatever
booleans the provider returns — a failed send never prevents the processing
of the remaining components or the final persistence. -/
theorem c9_send_error_isolation (e : String) (s : Nat) (b : Bool)
    (f g : String → String → Bool) (S : List Component) (P : PersistedState)
    (config_map : ConfigMap) (now : Nat) :
    gotifySend (.exn e) = false
    ∧ slackSend (.exn e) = false
    ∧ (400 ≤ s → s < 600 →
        gotifySend (.response s) = false ∧ slackSend (.response s b) = false)
    ∧ slackSend (.response s false) = false
    ∧ (runSends f S P config_map now).map (fun r => (r.1.map Prod.fst, r.2))
        = (runSends g S P config_map now).map (fun r => (r.1.map Prod.fst, r.2)) := by
  refine ⟨rfl, rfl, ?_, ?_, ?_⟩
  · intro h1 h2
    constructor
    · show (if 400 ≤ s ∧ s < 600 then false else true) = false
      rw [if_pos ⟨h1, h2⟩]
    · show (if 400 ≤ s ∧ s < 600 then false else if b = true then true else false) = false
      rw [if_pos ⟨h1, h2⟩]
  · show (if 400 ≤ s ∧ s < 600 then false else if false = true then true else false) = false
    by_cases h : 400 ≤ s ∧ s < 600
    · rw [if_pos h]
    · rw [if_neg h]
      rfl
  · unfold runSends
    cases check_components S P config_map now with
    | none => rfl
    | some r => simp [List.map_map, Function.comp]

/-- C9 witness: a 500 response makes both adapters return false. -/
theorem c9_send_error_isolation_witness :
    gotifySend (.response 500) = false ∧ slackSend (.response 500 true) = false :=
  (c9_send_error_isolation "boom" 500 true (fun _ _ => true) (fun _ _ => false)
    [] [] [] 0).2.2.1 (by decide) (by decide)

theorem get_message_isSome_now_indep (component_id component_name current_status : String)
    (prev_status : Option String) (message_type : String) (config_map : ConfigMap)
    (state : PersistedState) (now now' : Nat) :
    (get_message component_id component_name current_status prev_status message_type
        config_map state now).isSome
      = (get_message component_id component_name current_status prev_status message_type
        config_map state now').isSome := by
  unfold get_message
  simp only [Option.isSome_map']
  exact subst_isSome_indep _ _ _

/-- The ids and kinds a component contributes, and whether the loop aborts
on it, do not depend on the run's wall-clock time. -/
theorem processComponent_now_indep (P : PersistedState) (config_map : ConfigMap)
    (now now' : Nat) (c : Component) :
    (processComponent P config_map now c).map
        (fun r => (r.1.map (fun s => (s.component_id, s.message_type)), r.2))
      = (processComponent P config_map now' c).map
        (fun r => (r.1.map (fun s => (s.component_id, s.message_type)), r.2)) := by
  by_cases he : resolvedEnabled config_map (compId c) = false
  · cases hp : dictLookup (compId c) P with
    | some prev =>
      rw [processComponent_eq_lookup_some P config_map now c prev hp,
        processComponent_eq_lookup_some P config_map now' c prev hp, if_pos he, if_pos he]
    | none =>
      rw [processComponent_eq_lookup_none P config_map now c hp,
        processComponent_eq_lookup_none P config_map now' c hp, if_pos he, if_pos he]
  · cases hp : dictLookup (compId c) P with
    | some prev =>
      rw [processComponent_eq_lookup_some P config_map now c prev hp,
        processComponent_eq_lookup_some P config_map now' c prev hp, if_neg he, if_neg he]
      by_cases h1 : prev.status = "operational" ∧ compStatus c ≠ "operational"
          ∧ "degradation" ∈ resolvedNotifyOn config_map (compId c)
      · rw [if_pos h1, if_pos h1]
        have hiso := get_message_isSome_now_indep (compId c) (compName c) (compStatus c)
          (some prev.status) "degradation" config_map P now now'
        cases hg1 : get_message (compId c) (compName c) (compStatus c) (some prev.status)
            "degradation" config_map P now with
        | some tm =>
          cases hg2 : get_message (compId c) (compName c) (compStatus c) (some prev.status)
              "degradation" config_map P now' with
          | some tm2 => rfl
          | none => rw [hg1, hg2] at hiso; simp at hiso
        | none =>
          cases hg2 : get_message (compId c) (compName c) (compStatus c) (some prev.status)
              "degradation" config_map P now' with
          | some tm2 => rw [hg1, hg2] at hiso; simp at hiso
          | none => rfl
      · rw [if_neg h1, if_neg h1]
        by_cases h2 : prev.status ≠ "operational" ∧ compStatus c = "operational"
            ∧ "recovery" ∈ resolvedNotifyOn config_map (compId c)
        · rw [if_pos h2, if_pos h2]
          have hiso := get_message_isSome_now_indep (compId c) (compName c) (compStatus c)
            (some prev.status) "recovery" config_map P now now'
          cases hg1 : get_message (compId c) (compName c) (compStatus c) (some prev.status)
              "recovery" config_map P now with
          | some tm =>
            cases hg2 : get_message (compId c) (compName c) (compStatus c) (some prev.status)
                "recovery" config_map P now' with
            | some tm2 => rfl
            | none => rw [hg1, hg2] at hiso; simp at hiso
          | none =>
            cases hg2 : get_message (compId c) (compName c) (compStatus c) (some prev.status)
                "recovery" config_map P now' with
            | some tm2 => rw [hg1, hg2] at hiso; simp at hiso
            | none => rfl
        · rw [if_neg h2, if_neg h2]
    | none =>
      rw [processComponent_eq_lookup_none P config_map now c hp,
        processComponent_eq_lookup_none P config_map now' c hp, if_neg he, if_neg he]
      by_cases h1 : compStatus c ≠ "operational"
          ∧ "degradation" ∈ resolvedNotifyOn config_map (compId c)
      · rw [if_pos h1, if_pos h1]
        have hiso := get_message_isSome_now_indep (compId c) (compName c) (compStatus c)
          none "degradation" config_map P now now'
        cases hg1 : get_message (compId c) (compName c) (compStatus c) none
            "degradation" config_map P now with
        | some tm =>
          cases hg2 : get_message (compId c) (compName c) (compStatus c) none
              "degradation" config_map P now' with
          | some tm2 => rfl
          | none => rw [hg1, hg2] at hiso; simp at hiso
        | none =>
          cases hg2 : get_message (compId c) (compName c) (compStatus c) none
              "degradation" config_map P now' with
          | some tm2 => rw [hg1, hg2] at hiso; simp at hiso
          | none => rfl
      · rw [if_neg h1, if_neg h1]

theorem checkComponentsLoop_now_indep (P : PersistedState) (config_map : ConfigMap)
    (now now' : Nat) (S : List Component) :
    (checkComponentsLoop P config_map now S).map
        (fun r => (r.1.map (fun s => (s.component_id, s.message_type)), r.2))
      = (checkComponentsLoop P config_map now' S).map
        (fun r => (r.1.map (fun s => (s.component_id, s.message_type)), r.2)) := by
  induction S with
  | nil => rfl
  | cons hd tl ih =>
    simp only [checkComponentsLoop]
    have hpc := processComponent_now_indep P config_map now now' hd
    cases hg1 : processComponent P config_map now hd with
    | none =>
      cases hg2 : processComponent P config_map now' hd with
      | none => rfl
      | some r2 => rw [hg1, hg2] at hpc; simp at hpc
    | some r1 =>
      cases hg2 : processComponent P config_map now' hd with
      | none => rw [hg1, hg2] at hpc; simp at hpc
      | some r2 =>
        rw [hg1, hg2] at hpc
        simp only [Option.map_some', Option.some.injEq, Prod.mk.injEq] at hpc
        obtain ⟨hpc1, hpc2⟩ := hpc
        cases hl1 : checkComponentsLoop P config_map now tl with
        | none =>
          cases hl2 : checkComponentsLoop P config_map now' tl with
          | none => rfl
          | some rs2 => rw [hl1, hl2] at ih; simp at ih
        | some rs1 =>
          cases hl2 : checkComponentsLoop P config_map now' tl with
          | none => rw [hl1, hl2] at ih; simp at ih
          | some rs2 =>
            rw [hl1, hl2] at ih
            simp only [Option.map_some', Option.some.injEq, Prod.mk.injEq] at ih
            obtain ⟨hih1, hih2⟩ := ih
            simp only [Option.map_some', Option.some.injEq, Prod.mk.injEq]
            refine ⟨?_, by rw [hpc2, hih2]⟩
            rw [List.map_append, List.map_append, hih1]
            congr 1
            cases c1 : r1.1 with
            | none =>
              cases c2 : r2.1 with
              | none => rfl
              | some x2 => rw [c1, c2] at hpc1; simp at hpc1
            | some x1 =>
              cases c2 : r2.1 with
              | none => rw [c1, c2] at hpc1; simp at hpc1
              | some x2 =>
                rw [c1, c2] at hpc1
                simp only [Option.map_some', Option.some.injEq] at hpc1
                simp [hpc1]

/-- C10 (amended): a state-file write failure is swallowed inside
`save_state` and the run is unaffected by the write outcome (it is not an
input of `check_components`), but the disk consequences depend on where the
write fails.  When `open("state.json", "w")` itself raises, the prior file
is left in place and a later run against it re-detects the same
transitions — same component ids, same kinds, same issues flag — whatever
its wall-clock time.  When the dump fails after the open has truncated the
file, the prior state is destroyed and the next run loads the empty state
instead.  When the run aborts before saving, no write occurs for any
outcome. -/
theorem c10_save_failure_swallowed (S : List Component) (file : PersistedState)
    (config_map : ConfigMap) (now now' : Nat) :
    runPersist S file config_map now WriteOutcome.openFail = file
    ∧ ((check_components S file config_map now).isSome = true →
        runPersist S file config_map now WriteOutcome.dumpFail = [])
    ∧ ((check_components S file config_map now).isSome = false →
        ∀ w, runPersist S file config_map now w = file)
    ∧ (check_components S file config_map now).map
          (fun r => (r.1.map (fun s => (s.component_id, s.message_type)), r.2.1))
        = (check_components S file config_map now').map
          (fun r => (r.1.map (fun s => (s.component_id, s.message_type)), r.2.1)) := by
  refine ⟨?_, ?_, ?_, ?_⟩
  · unfold runPersist
    cases check_components S file config_map now with
    | none => rfl
    | some r => rfl
  · intro h
    unfold runPersist
    cases hc : check_components S file config_map now with
    | none => rw [hc] at h; simp at h
    | some r => rfl
  · intro h w
    unfold runPersist
    cases hc : check_components S file config_map now with
    | none => cases w <;> rfl
    | some r => rw [hc] at h; simp at h
  · unfold check_components
    rw [Option.map_map, Option.map_map]
    exact checkComponentsLoop_now_indep file config_map now now' S

set_option maxRecDepth 65536 in
/-- C10 counterexample: a recovery run whose state write fails during the
dump.  The truncating open has destroyed the prior file (the next load
degrades to the empty state, not the prior content), and the subsequent run
against that file attempts no notification at all — the pending recovery is
never re-notified — against the claim's "the prior state file is left in
place and a subsequent run can re-detect and re-notify the same
transitions". -/
theorem c10_save_failure_counterexample :
    runPersist [⟨some "bankid", some "BankID", some "operational"⟩]
        [("bankid", ⟨"BankID", "major_outage", 0, some 0⟩)] [] 5 WriteOutcome.dumpFail
      ≠ [("bankid", ⟨"BankID", "major_outage", 0, some 0⟩)]
    ∧ (check_components [⟨some "bankid", some "BankID", some "operational"⟩]
          [("bankid", ⟨"BankID", "major_outage", 0, some 0⟩)] [] 5).map
        (fun r => r.1.map (fun s => s.message_type))
      = some ["recovery"]
    ∧ (check_components [⟨some "bankid", some "BankID", some "operational"⟩]
          (runPersist [⟨some "bankid", some "BankID", some "operational"⟩]
            [("bankid", ⟨"BankID", "major_outage", 0, some 0⟩)] [] 5 WriteOutcome.dumpFail)
          [] 6).map (fun r => r.1)
      = some [] := by
  refine ⟨by decide, by decide, by decide⟩

set_option maxRecDepth 65536 in
/-- C10 witness: with a completed run, an open-failure leaves the prior
file intact while a dump-failure leaves the state the next load sees
empty. -/
theorem c10_save_failure_witness :
    runPersist [⟨some "bankid", some "BankID", some "major_outage"⟩]
        [("x", ⟨"X", "operational", 0, none⟩)] [] 5 WriteOutcome.openFail
      = [("x", ⟨"X", "operational", 0, none⟩)]
    ∧ runPersist [⟨some "bankid", some "BankID", some "major_outage"⟩]
        [("x", ⟨"X", "operational", 0, none⟩)] [] 5 WriteOutcome.dumpFail
      = [] := by
  have h := c10_save_failure_swallowed [⟨some "bankid", some "BankID", some "major_outage"⟩]
    [("x", ⟨"X", "operational", 0, none⟩)] [] 5 6
  exact ⟨h.1, h.2.1 (by decide)⟩

set_option maxRecDepth 65536 in
/-- C1 counterexample: a component that is enabled, newly degraded and
subscribed to "degradation" satisfies the claim's notify condition, yet
when its custom template references an undefined parameter the run raises
inside `get_message` before `send_notification` is reached: the whole run
aborts (`none`) and no send is attempted for the component, against the
claim's "exactly when". -/
theorem c1_notification_gating_counterexample :
    check_components [⟨some "bankid", some "BankID", some "major_outage"⟩] [] c6BadCfg 7
      = none
    ∧ notifAttemptCond [] c6BadCfg ⟨some "bankid", some "BankID", some "major_outage"⟩
      = true := by
  exact ⟨by decide, by decide⟩

end StatusChecker
